import Mathlib

set_option maxRecDepth 4000

/-!
Shallow embedding of the vault-datadog-plugin secrets engine.

The Go handlers are modelled as pure functions.  External effects are made
explicit:

* the Datadog provider is an oracle (`Provider`) giving the result of each
  remote operation, and every handler additionally returns the list of
  provider calls it performed, in order (`ProviderCall`);
* Vault storage is a snapshot (`Storage`) holding the role records
  (stored by `pathRoleWrite` under key `role/<name>`, here an association
  list keyed by name) and the optional `config` record;
* the backend's lazily cached client (`b.client`) is a boolean
  `hasClient` saying whether a client is already cached; constructing a new
  client from the stored config has no observable effect on which provider
  calls a single request performs, so construction itself is not modelled;
* Go's dynamic `interface{}` values stored in `logical.Secret.InternalData`
  are modelled by `GoVal`; the unchecked type assertion `v.(string)`
  (which panics on a missing or non-string value) is `assertString`
  returning `none` exactly when Go would panic, and the checked assertion
  `v, ok := m[k].(string)` is `assertStringOk`.
-/

/-- A dynamic Go value held in an `interface{}`-typed map: either a string
or some value of another type (the engine only ever stores strings). -/
inductive GoVal where
  | str : String → GoVal
  | other : GoVal
deriving DecidableEq

/-- Go's unchecked type assertion `v.(string)` on an optional map entry:
`none` means the Go program panics (entry missing or not a string). -/
def assertString : Option GoVal → Option String
  | some (GoVal.str s) => some s
  | _ => none

/-- Go's checked type assertion `v, ok := m[k].(string)`: yields the zero
value `""` with `false` when the entry is missing or not a string. -/
def assertStringOk : Option GoVal → String × Bool
  | some (GoVal.str s) => (s, true)
  | _ => ("", false)

/-- `datadogRole` from the source: key type, scopes, TTL and max TTL
(both in seconds, Go `int`). -/
structure datadogRole where
  KeyType : String
  Scopes : List String
  TTL : Int
  MaxTTL : Int
deriving DecidableEq

/-- `datadogConfig` from `config.go`: the admin API/App key pair. -/
structure datadogConfig where
  APIKey : String
  AppKey : String
deriving DecidableEq

/-- Snapshot of the Vault storage view: role records keyed by role name
(the Go code stores them at `role/<name>`) and the optional `config`
record. -/
structure Storage where
  roles : List (String × datadogRole)
  config : Option datadogConfig
deriving DecidableEq

/-- `getRole`: look up the role record stored under the given name. -/
def getRole (s : Storage) (name : String) : Option datadogRole :=
  s.roles.lookup name

/-- `getConfig`: look up the singleton `config` record. -/
def getConfig (s : Storage) : Option datadogConfig :=
  s.config

/-- Oracle giving the outcome of each remote Datadog operation, abstracting
`clientInterface` from `client.go`. -/
structure Provider where
  createAPIKey : String → Except String String
  createAppKey : String → List String → Except String String
  deleteAPIKey : String → Except String Unit
  deleteAppKey : String → Except String Unit

/-- One provider call performed by a handler, with its arguments. -/
inductive ProviderCall where
  | createAPIKey : String → ProviderCall
  | createAppKey : String → List String → ProviderCall
  | deleteAPIKey : String → ProviderCall
  | deleteAppKey : String → ProviderCall
deriving DecidableEq

/-- Whether a call is a `createAPIKey` call. -/
def ProviderCall.isCreateAPIKey : ProviderCall → Bool
  | ProviderCall.createAPIKey _ => true
  | _ => false

/-- Whether a call is a `createAppKey` call. -/
def ProviderCall.isCreateAppKey : ProviderCall → Bool
  | ProviderCall.createAppKey _ _ => true
  | _ => false

/-- Whether a call is one of the two delete operations. -/
def ProviderCall.isDelete : ProviderCall → Bool
  | ProviderCall.deleteAPIKey _ => true
  | ProviderCall.deleteAppKey _ => true
  | _ => false

/-- Outcome of `pathRoleWrite`: a caller-visible error response
(`logical.ErrorResponse(msg), nil`) or success (`nil, nil`). -/
inductive RoleWriteOutcome where
  | errResponse : String → RoleWriteOutcome
  | ok : RoleWriteOutcome
deriving DecidableEq

/-- Map update for the role store: `req.Storage.Put` on key `role/<name>`
replaces any record previously stored under the same name. -/
def putRole (rs : List (String × datadogRole)) (name : String)
    (r : datadogRole) : List (String × datadogRole) :=
  (name, r) :: rs.filter (fun p => p.1 ≠ name)

/-- `pathRoleWrite` from the source: reject empty name, then validate the
key type against `api_key`/`app_key`/`both`, then validate `ttl ≤ max_ttl`,
and only then store the role record. -/
def pathRoleWrite (s : Storage) (name keyType : String) (scopes : List String)
    (ttl maxTTL : Int) : RoleWriteOutcome × Storage :=
  if name = "" then
    (RoleWriteOutcome.errResponse "missing role name", s)
  else if ¬ (keyType = "api_key" ∨ keyType = "app_key" ∨ keyType = "both") then
    (RoleWriteOutcome.errResponse
      "invalid key_type; must be \x27api_key\x27, \x27app_key\x27, or \x27both\x27", s)
  else if ttl > maxTTL then
    (RoleWriteOutcome.errResponse "ttl cannot be greater than max_ttl", s)
  else
    (RoleWriteOutcome.ok,
     { s with roles := putRole s.roles name ⟨keyType, scopes, ttl, maxTTL⟩ })

/-- The framework's `data.Get("name").(string)` for the `keys/` path: the
`name` field carries schema `Default: "vault-generated"`, so an absent
field yields `"vault-generated"` while an explicitly supplied value (even
the empty string) is returned as-is. -/
def fieldGetName : Option String → String
  | some v => v
  | none => "vault-generated"

/-- The effective key name computed by `pathKeysRead`: the field value
(after the schema default), replaced by
`fmt.Sprintf("vault-%s-%d", roleName, time.Now().Unix())` only when it is
the empty string. -/
def effectiveKeyName (roleName : String) (nameField : Option String)
    (now : Int) : String :=
  let keyName := fieldGetName nameField
  if keyName = "" then "vault-" ++ roleName ++ "-" ++ toString now
  else keyName

/-- The successful issuance response: the `respData` map (an `api_key` /
`app_key` entry is present exactly when the corresponding branch ran), the
`Secret.InternalData` strings (the Go `apiKey`/`appKey` variables, `""`
when the branch did not run), and the lease options. -/
structure KeysResponse where
  apiKeyData : Option String
  appKeyData : Option String
  internalApiKey : String
  internalAppKey : String
  internalKeyType : String
  leaseTTLSeconds : Int
  leaseMaxTTLSeconds : Int
  renewable : Bool
deriving DecidableEq

/-- Outcome of `pathKeysRead`: a caller-visible error response, an internal
failure (`nil, err`), or a successful response with lease. -/
inductive KeysReadOutcome where
  | errResponse : String → KeysReadOutcome
  | fail : String → KeysReadOutcome
  | success : KeysResponse → KeysReadOutcome
deriving DecidableEq

/-- The two sequential key-creation blocks of `pathKeysRead`, entered once
a role is loaded and a client is available.  The Go code runs the API-key
block first (`key_type` equal to `api_key` or `both`), aborting on error
with the wrapped message, then the app-key block (`key_type` equal to
`app_key` or `both`), then assembles the response and the secret. -/
def issueWithClient (p : Provider) (role : datadogRole) (keyName : String) :
    KeysReadOutcome × List ProviderCall :=
  if role.KeyType = "api_key" ∨ role.KeyType = "both" then
    match p.createAPIKey keyName with
    | Except.error e =>
        (KeysReadOutcome.fail ("error creating API key: " ++ e),
         [ProviderCall.createAPIKey keyName])
    | Except.ok apiKey =>
        if role.KeyType = "app_key" ∨ role.KeyType = "both" then
          match p.createAppKey keyName role.Scopes with
          | Except.error e =>
              (KeysReadOutcome.fail ("error creating Application key: " ++ e),
               [ProviderCall.createAPIKey keyName,
                ProviderCall.createAppKey keyName role.Scopes])
          | Except.ok appKey =>
              (KeysReadOutcome.success
                ⟨some apiKey, some appKey, apiKey, appKey, role.KeyType,
                 role.TTL, role.MaxTTL, true⟩,
               [ProviderCall.createAPIKey keyName,
                ProviderCall.createAppKey keyName role.Scopes])
        else
          (KeysReadOutcome.success
            ⟨some apiKey, none, apiKey, "", role.KeyType,
             role.TTL, role.MaxTTL, true⟩,
           [ProviderCall.createAPIKey keyName])
  else
    if role.KeyType = "app_key" ∨ role.KeyType = "both" then
      match p.createAppKey keyName role.Scopes with
      | Except.error e =>
          (KeysReadOutcome.fail ("error creating Application key: " ++ e),
           [ProviderCall.createAppKey keyName role.Scopes])
      | Except.ok appKey =>
          (KeysReadOutcome.success
            ⟨none, some appKey, "", appKey, role.KeyType,
             role.TTL, role.MaxTTL, true⟩,
           [ProviderCall.createAppKey keyName role.Scopes])
    else
      (KeysReadOutcome.success
        ⟨none, none, "", "", role.KeyType, role.TTL, role.MaxTTL, true⟩, [])

/-- `pathKeysRead` from the source: reject empty role name; load the role
and reject when absent; ensure a client (when none is cached, read the
config and reject with the not-configured response when it is absent);
compute the effective key name; then run the creation blocks. -/
def pathKeysRead (p : Provider) (hasClient : Bool) (s : Storage)
    (roleName : String) (nameField : Option String) (now : Int) :
    KeysReadOutcome × List ProviderCall :=
  if roleName = "" then
    (KeysReadOutcome.errResponse "missing role name", [])
  else
    match getRole s roleName with
    | none =>
        (KeysReadOutcome.errResponse
          ("role \x27" ++ roleName ++ "\x27 not found"), [])
    | some role =>
        if hasClient = false ∧ getConfig s = none then
          (KeysReadOutcome.errResponse "datadog backend not configured", [])
        else
          issueWithClient p role (effectiveKeyName roleName nameField now)

/-- The `InternalData` map of the lease handed back at revocation, with its
three dynamically typed entries. -/
structure InternalData where
  key_type : Option GoVal
  api_key : Option GoVal
  app_key : Option GoVal
deriving DecidableEq

/-- Outcome of `secretKeysRevoke`: success (`nil, nil`), a caller-visible
error response, an internal failure (`nil, err`), or a Go panic raised by
the unchecked type assertion on `key_type`. -/
inductive RevokeOutcome where
  | ok : RevokeOutcome
  | errResponse : String → RevokeOutcome
  | fail : String → RevokeOutcome
  | panicked : RevokeOutcome
deriving DecidableEq

/-- The two sequential deletion blocks of `secretKeysRevoke`, entered once
a client is available and `key_type` has been asserted to a string: delete
the recorded API key when applicable (aborting on error with the wrapped
message), then the recorded app key when applicable. -/
def revokeWithClient (p : Provider) (keyType : String)
    (apiV appV : Option GoVal) : RevokeOutcome × List ProviderCall :=
  let firstStep : Except (String × List ProviderCall) (List ProviderCall) :=
    if keyType = "api_key" ∨ keyType = "both" then
      let a := assertStringOk apiV
      if a.2 = true ∧ a.1 ≠ "" then
        match p.deleteAPIKey a.1 with
        | Except.error e =>
            Except.error ("error revoking API key: " ++ e,
                          [ProviderCall.deleteAPIKey a.1])
        | Except.ok _ => Except.ok [ProviderCall.deleteAPIKey a.1]
      else Except.ok []
    else Except.ok []
  match firstStep with
  | Except.error pr => (RevokeOutcome.fail pr.1, pr.2)
  | Except.ok tr1 =>
      if keyType = "app_key" ∨ keyType = "both" then
        let b := assertStringOk appV
        if b.2 = true ∧ b.1 ≠ "" then
          match p.deleteAppKey b.1 with
          | Except.error e =>
              (RevokeOutcome.fail ("error revoking Application key: " ++ e),
               tr1 ++ [ProviderCall.deleteAppKey b.1])
          | Except.ok _ =>
              (RevokeOutcome.ok, tr1 ++ [ProviderCall.deleteAppKey b.1])
        else (RevokeOutcome.ok, tr1)
      else (RevokeOutcome.ok, tr1)

/-- `secretKeysRevoke` from the source: ensure a client (as in issuance),
then perform the unchecked `InternalData["key_type"].(string)` assertion
(a panic when it fails), then run the deletion blocks. -/
def secretKeysRevoke (p : Provider) (hasClient : Bool) (s : Storage)
    (internal : InternalData) : RevokeOutcome × List ProviderCall :=
  if hasClient = false ∧ getConfig s = none then
    (RevokeOutcome.errResponse "datadog backend not configured", [])
  else
    match assertString internal.key_type with
    | none => (RevokeOutcome.panicked, [])
    | some keyType => revokeWithClient p keyType internal.api_key internal.app_key

/-- Reference behaviour written from the specification of revocation, app
half: if the key type is `app_key` or `both` and the recorded app-key value
is non-empty, call `deleteAppKey` with exactly that value, aborting on
error; otherwise succeed with the calls made so far. -/
def revokeSpecApp (p : Provider) (kt b : String) (tr1 : List ProviderCall) :
    RevokeOutcome × List ProviderCall :=
  if (kt = "app_key" ∨ kt = "both") ∧ b ≠ "" then
    match p.deleteAppKey b with
    | Except.error e =>
        (RevokeOutcome.fail ("error revoking Application key: " ++ e),
         tr1 ++ [ProviderCall.deleteAppKey b])
    | Except.ok _ => (RevokeOutcome.ok, tr1 ++ [ProviderCall.deleteAppKey b])
  else (RevokeOutcome.ok, tr1)

/-- Reference behaviour written from the specification of revocation: call
exactly the delete operations matching the recorded key type with exactly
the recorded values (`deleteAPIKey` first when the key type is `api_key` or
`both` and the recorded API-key value is non-empty), aborting on the first
failing delete with the wrapped error.  The definition takes only the
recorded credential set, not the storage: the current role definitions
cannot influence it. -/
def revokeSpec (p : Provider) (kt a b : String) :
    RevokeOutcome × List ProviderCall :=
  if (kt = "api_key" ∨ kt = "both") ∧ a ≠ "" then
    match p.deleteAPIKey a with
    | Except.error e =>
        (RevokeOutcome.fail ("error revoking API key: " ++ e),
         [ProviderCall.deleteAPIKey a])
    | Except.ok _ => revokeSpecApp p kt b [ProviderCall.deleteAPIKey a]
  else revokeSpecApp p kt b []

/-!  Embedding of `client.go`.  Each client method issues exactly one HTTP
request through `doRequest`; the network is an oracle mapping a request to
its outcome, and each method additionally returns the list of requests it
issued. -/

/-- The JSON payload of a request, as built by the client methods. -/
inductive RequestPayload where
  | empty : RequestPayload
  | createAPI : String → RequestPayload
  | createApp : String → List String → RequestPayload
deriving DecidableEq

/-- An HTTP request as assembled by `doRequest`: method, path under the
base URL, and payload. -/
structure RequestSpec where
  method : String
  path : String
  payload : RequestPayload
deriving DecidableEq

/-- The network-level result of one HTTP request: the status code of the
response and the result of decoding each JSON field a client method may
ask for from its body. -/
structure HTTPResponse where
  statusCode : Nat
  decodeAPIKey : Except String String
  decodeAppKey : Except String String

/-- Outcome of sending one HTTP request: a transport error from
`c.client.Do`, or a response. -/
inductive HTTPOutcome where
  | transportError : String → HTTPOutcome
  | response : HTTPResponse → HTTPOutcome

/-- `doRequest` from `client.go`: propagate a transport error, turn a
response with status code at least 400 into an error naming the status,
and hand any other response back to the caller. -/
def doRequest (h : HTTPOutcome) : Except String HTTPResponse :=
  match h with
  | HTTPOutcome.transportError e => Except.error e
  | HTTPOutcome.response r =>
      if 400 ≤ r.statusCode then
        Except.error
          ("datadog API request failed with status " ++ toString r.statusCode)
      else Except.ok r

/-- `createAPIKey` from `client.go`: one POST to `/api_key` with the name
payload, then decode the `api_key` field of the body. -/
def clientCreateAPIKey (world : RequestSpec → HTTPOutcome) (name : String) :
    Except String String × List RequestSpec :=
  let req : RequestSpec := ⟨"POST", "/api_key", RequestPayload.createAPI name⟩
  match doRequest (world req) with
  | Except.error e => (Except.error e, [req])
  | Except.ok r => (r.decodeAPIKey, [req])

/-- `createAppKey` from `client.go`: one POST to `/application_key` with
the name and scopes payload, then decode the `application_key` field. -/
def clientCreateAppKey (world : RequestSpec → HTTPOutcome) (name : String)
    (scopes : List String) : Except String String × List RequestSpec :=
  let req : RequestSpec :=
    ⟨"POST", "/application_key", RequestPayload.createApp name scopes⟩
  match doRequest (world req) with
  | Except.error e => (Except.error e, [req])
  | Except.ok r => (r.decodeAppKey, [req])

/-- `deleteAPIKey` from `client.go`: one DELETE to `/api_key/<key>`. -/
def clientDeleteAPIKey (world : RequestSpec → HTTPOutcome) (key : String) :
    Except String Unit × List RequestSpec :=
  let req : RequestSpec := ⟨"DELETE", "/api_key/" ++ key, RequestPayload.empty⟩
  match doRequest (world req) with
  | Except.error e => (Except.error e, [req])
  | Except.ok _ => (Except.ok (), [req])

/-- `deleteAppKey` from `client.go`: one DELETE to
`/application_key/<key>`. -/
def clientDeleteAppKey (world : RequestSpec → HTTPOutcome) (key : String) :
    Except String Unit × List RequestSpec :=
  let req : RequestSpec :=
    ⟨"DELETE", "/application_key/" ++ key, RequestPayload.empty⟩
  match doRequest (world req) with
  | Except.error e => (Except.error e, [req])
  | Except.ok _ => (Except.ok (), [req])

/-!  Concrete fixtures used by witnesses and counterexamples. -/

/-- A provider on which every operation succeeds, answering the sample
values of the specification scenario. -/
def okProvider : Provider :=
  ⟨fun _ => Except.ok "test-api-key",
   fun _ _ => Except.ok "test-app-key",
   fun _ => Except.ok (),
   fun _ => Except.ok ()⟩

/-- A provider on which every operation fails with message `boom`. -/
def failingProvider : Provider :=
  ⟨fun _ => Except.error "boom",
   fun _ _ => Except.error "boom",
   fun _ => Except.error "boom",
   fun _ => Except.error "boom"⟩

/-- The sample role of the specification scenario. -/
def sampleRole : datadogRole := ⟨"both", ["logs_read"], 3600, 86400⟩

/-- A role minting only an API key. -/
def apiRole : datadogRole := ⟨"api_key", [], 3600, 86400⟩

/-- A role minting only an application key. -/
def appRole : datadogRole := ⟨"app_key", ["logs_read"], 3600, 86400⟩

/-- Storage holding the sample role and a configuration record. -/
def sampleStorage : Storage :=
  ⟨[("r1", sampleRole), ("ra", apiRole), ("rb", appRole)], some ⟨"k1", "k2"⟩⟩

/-- Storage with no roles and no configuration. -/
def emptyStorage : Storage := ⟨[], none⟩

/-- A redirect-class response (status 304) whose body decodes fine. -/
def response304 : HTTPResponse := ⟨304, Except.ok "k", Except.ok "k"⟩

/-- A network on which every request yields `response304`. -/
def world304 : RequestSpec → HTTPOutcome :=
  fun _ => HTTPOutcome.response response304

/-- A failing HTTP response (status 404). -/
def response404 : HTTPResponse := ⟨404, Except.error "d", Except.error "d"⟩

/-!  Theorems. -/

/-- When a client is cached or a configuration record is stored, the
lazy-client guard of the handlers does not fire. -/
theorem clientGuardFalse {hc : Bool} {s : Storage}
    (hcl : hc = true ∨ s.config.isSome = true) :
    ¬ (hc = false ∧ getConfig s = none) := by
  rintro ⟨h1, h2⟩
  rcases hcl with h | h
  · rw [h] at h1
    exact Bool.noConfusion h1
  · simp only [getConfig] at h2
    rw [h2] at h
    simp at h

/-- On a credential set recording string values, the deletion blocks of
`secretKeysRevoke` behave exactly as the specification-side reference
`revokeSpec`. -/
theorem revokeWithClient_str (p : Provider) (kt a b : String) :
    revokeWithClient p kt (some (GoVal.str a)) (some (GoVal.str b)) =
      revokeSpec p kt a b := by
  unfold revokeWithClient revokeSpec revokeSpecApp
  simp only [assertStringOk]
  by_cases h1 : kt = "api_key" ∨ kt = "both" <;>
  by_cases h2 : a = "" <;>
  by_cases h3 : kt = "app_key" ∨ kt = "both" <;>
  by_cases h4 : b = "" <;>
  cases hA : p.deleteAPIKey a <;>
  cases hB : p.deleteAppKey b <;>
  simp [h1, h2, h3, h4, hA, hB]

/-- C1: for every credential set handed back at revocation (with a client
available), `secretKeysRevoke` performs exactly the delete operations
matching the recorded key type on the recorded values — `deleteAPIKey`
when the key type is `api_key` or `both` and the recorded API-key value is
non-empty, then `deleteAppKey` when the key type is `app_key` or `both`
and the recorded app-key value is non-empty — aborting on the first
failing delete with a wrapped error, exactly as the reference `revokeSpec`,
which reads no role definition from storage (the equation holds for every
storage `s`, and its right-hand side does not mention `s`). -/
theorem revoke_matches_recorded_credentials (p : Provider) (hc : Bool)
    (s : Storage) (kt a b : String)
    (hcl : hc = true ∨ s.config.isSome = true) :
    secretKeysRevoke p hc s
        ⟨some (GoVal.str kt), some (GoVal.str a), some (GoVal.str b)⟩ =
      revokeSpec p kt a b := by
  unfold secretKeysRevoke
  rw [if_neg (clientGuardFalse hcl)]
  simp only [assertString]
  exact revokeWithClient_str p kt a b

/-- Witness for C1 at a concrete provider, storage and credential set. -/
theorem revoke_matches_recorded_credentials_witness :
    (true = true ∨ (sampleStorage.config).isSome = true) ∧
    secretKeysRevoke okProvider true sampleStorage
        ⟨some (GoVal.str "both"), some (GoVal.str "a1"),
         some (GoVal.str "b1")⟩ =
      revokeSpec okProvider "both" "a1" "b1" :=
  ⟨Or.inl rfl,
   revoke_matches_recorded_credentials okProvider true sampleStorage
     "both" "a1" "b1" (Or.inl rfl)⟩

/-- C2: a successful issuance against a role of key type `both` calls
`createAPIKey` before `createAppKey`, returns both created key values in
the response data, and carries a lease with TTL `role.TTL` seconds, max
TTL `role.MaxTTL` seconds and renewable set. -/
theorem issue_both_order_and_lease (p : Provider) (hc : Bool) (s : Storage)
    (roleName : String) (nameField : Option String) (now : Int)
    (role : datadogRole) (a b : String)
    (hrn : roleName ≠ "")
    (hrole : getRole s roleName = some role)
    (hkt : role.KeyType = "both")
    (hcl : hc = true ∨ s.config.isSome = true)
    (hapi : p.createAPIKey (effectiveKeyName roleName nameField now) =
      Except.ok a)
    (happ : p.createAppKey (effectiveKeyName roleName nameField now)
        role.Scopes = Except.ok b) :
    pathKeysRead p hc s roleName nameField now =
      (KeysReadOutcome.success
        ⟨some a, some b, a, b, "both", role.TTL, role.MaxTTL, true⟩,
       [ProviderCall.createAPIKey (effectiveKeyName roleName nameField now),
        ProviderCall.createAppKey (effectiveKeyName roleName nameField now)
          role.Scopes]) := by
  simp only [pathKeysRead, if_neg hrn, hrole, if_neg (clientGuardFalse hcl),
    issueWithClient, hkt, hapi, happ]
  simp

/-- Witness for C2: the specification scenario on the sample role. -/
theorem issue_both_order_and_lease_witness :
    ("r1" ≠ "" ∧ getRole sampleStorage "r1" = some sampleRole ∧
     sampleRole.KeyType = "both") ∧
    pathKeysRead okProvider true sampleStorage "r1" (some "test-keys") 0 =
      (KeysReadOutcome.success
        ⟨some "test-api-key", some "test-app-key", "test-api-key",
         "test-app-key", "both", sampleRole.TTL, sampleRole.MaxTTL, true⟩,
       [ProviderCall.createAPIKey
          (effectiveKeyName "r1" (some "test-keys") 0),
        ProviderCall.createAppKey
          (effectiveKeyName "r1" (some "test-keys") 0) sampleRole.Scopes]) :=
  ⟨⟨by decide, rfl, rfl⟩,
   issue_both_order_and_lease okProvider true sampleStorage "r1"
     (some "test-keys") 0 sampleRole "test-api-key" "test-app-key"
     (by decide) rfl rfl (Or.inl rfl) rfl rfl⟩

/-- C3: when the role key type is `api_key` or `both` and `createAPIKey`
fails, issuance aborts with the wrapped provider error and the trace holds
exactly that one call — no `createAppKey` call and no delete call. -/
theorem issue_api_failure_aborts (p : Provider) (hc : Bool) (s : Storage)
    (roleName : String) (nameField : Option String) (now : Int)
    (role : datadogRole) (e : String)
    (hrn : roleName ≠ "")
    (hrole : getRole s roleName = some role)
    (hkt : role.KeyType = "api_key" ∨ role.KeyType = "both")
    (hcl : hc = true ∨ s.config.isSome = true)
    (hapi : p.createAPIKey (effectiveKeyName roleName nameField now) =
      Except.error e) :
    pathKeysRead p hc s roleName nameField now =
      (KeysReadOutcome.fail ("error creating API key: " ++ e),
       [ProviderCall.createAPIKey
          (effectiveKeyName roleName nameField now)]) := by
  simp only [pathKeysRead, if_neg hrn, hrole, if_neg (clientGuardFalse hcl),
    issueWithClient, if_pos hkt, hapi]

/-- Witness for C3 on a provider whose API-key creation fails. -/
theorem issue_api_failure_aborts_witness :
    ("r1" ≠ "" ∧ getRole sampleStorage "r1" = some sampleRole ∧
     (sampleRole.KeyType = "api_key" ∨ sampleRole.KeyType = "both")) ∧
    pathKeysRead failingProvider true sampleStorage "r1" (some "test-keys")
        0 =
      (KeysReadOutcome.fail ("error creating API key: " ++ "boom"),
       [ProviderCall.createAPIKey
          (effectiveKeyName "r1" (some "test-keys") 0)]) :=
  ⟨⟨by decide, rfl, Or.inr rfl⟩,
   issue_api_failure_aborts failingProvider true sampleStorage "r1"
     (some "test-keys") 0 sampleRole "boom" (by decide) rfl (Or.inr rfl)
     (Or.inl rfl) rfl⟩

/-- C4 counterexample: an issuance request against storage with no cached
client and no stored configuration, naming an absent role, is rejected with
the role-not-found response — not with the not-configured response (the
role lookup precedes the configuration check), although zero provider
calls are indeed made. -/
theorem issuance_unconfigured_not_notconfigured_cex :
    pathKeysRead failingProvider false emptyStorage "r1" none 0 =
      (KeysReadOutcome.errResponse "role \x27r1\x27 not found", []) ∧
    KeysReadOutcome.errResponse "role \x27r1\x27 not found" ≠
      KeysReadOutcome.errResponse "datadog backend not configured" :=
  ⟨rfl, by decide⟩

/-- C4 amended: when no client is cached and no configuration record is
stored, an issuance request whose non-empty role name resolves to a stored
role fails with the not-configured response and makes zero provider
calls. -/
theorem issuance_unconfigured_notconfigured_amended (p : Provider)
    (s : Storage) (roleName : String) (nameField : Option String) (now : Int)
    (role : datadogRole)
    (hrn : roleName ≠ "")
    (hrole : getRole s roleName = some role)
    (hcfg : s.config = none) :
    pathKeysRead p false s roleName nameField now =
      (KeysReadOutcome.errResponse "datadog backend not configured", []) := by
  simp [pathKeysRead, hrn, hrole, getConfig, hcfg]

/-- Witness for the amended C4 on concrete unconfigured storage. -/
theorem issuance_unconfigured_notconfigured_amended_witness :
    ("r1" ≠ "" ∧
     getRole ⟨[("r1", sampleRole)], none⟩ "r1" = some sampleRole ∧
     (⟨[("r1", sampleRole)], none⟩ : Storage).config = none) ∧
    pathKeysRead failingProvider false ⟨[("r1", sampleRole)], none⟩ "r1"
        none 0 =
      (KeysReadOutcome.errResponse "datadog backend not configured", []) :=
  ⟨⟨by decide, rfl, rfl⟩,
   issuance_unconfigured_notconfigured_amended failingProvider
     ⟨[("r1", sampleRole)], none⟩ "r1" none 0 sampleRole (by decide) rfl rfl⟩

/-- C5 counterexample: a role-write whose key type is invalid and whose
TTL also exceeds the max TTL is rejected with the invalid-key-type
message, not with the ttl message demanded by the claim for every request
with `ttl > maxTTL`. -/
theorem role_write_ordering_cex :
    pathRoleWrite emptyStorage "r1" "bogus" [] 10 5 =
      (RoleWriteOutcome.errResponse
        "invalid key_type; must be \x27api_key\x27, \x27app_key\x27, or \x27both\x27",
       emptyStorage) ∧
    (10 : Int) > 5 ∧
    RoleWriteOutcome.errResponse
        "invalid key_type; must be \x27api_key\x27, \x27app_key\x27, or \x27both\x27" ≠
      RoleWriteOutcome.errResponse "ttl cannot be greater than max_ttl" :=
  ⟨rfl, by decide, by decide⟩

/-- C5 amended: for a role-write with a non-empty name, an invalid key
type is rejected with the invalid-key-type message; with a valid key type,
`ttl > maxTTL` is rejected with the ttl message; both rejections leave the
storage exactly unchanged. -/
theorem role_write_validation_amended (s t : Storage)
    (name1 name2 kt1 kt2 : String) (scopes1 scopes2 : List String)
    (ttl1 maxTTL1 ttl2 maxTTL2 : Int)
    (h1 : name1 ≠ "")
    (hkt1 : ¬ (kt1 = "api_key" ∨ kt1 = "app_key" ∨ kt1 = "both"))
    (h2 : name2 ≠ "")
    (hkt2 : kt2 = "api_key" ∨ kt2 = "app_key" ∨ kt2 = "both")
    (httl : ttl2 > maxTTL2) :
    pathRoleWrite s name1 kt1 scopes1 ttl1 maxTTL1 =
      (RoleWriteOutcome.errResponse
        "invalid key_type; must be \x27api_key\x27, \x27app_key\x27, or \x27both\x27",
       s) ∧
    pathRoleWrite t name2 kt2 scopes2 ttl2 maxTTL2 =
      (RoleWriteOutcome.errResponse "ttl cannot be greater than max_ttl",
       t) := by
  constructor
  · simp [pathRoleWrite, h1, hkt1]
  · simp [pathRoleWrite, h2, hkt2, httl]

/-- Witness for the amended C5 at concrete rejected writes. -/
theorem role_write_validation_amended_witness :
    ("r1" ≠ "" ∧ ¬ ("bogus" = "api_key" ∨ "bogus" = "app_key" ∨
       "bogus" = "both") ∧ (10 : Int) > 5) ∧
    pathRoleWrite emptyStorage "r1" "bogus" [] 0 5 =
      (RoleWriteOutcome.errResponse
        "invalid key_type; must be \x27api_key\x27, \x27app_key\x27, or \x27both\x27",
       emptyStorage) ∧
    pathRoleWrite sampleStorage "r2" "api_key" [] 10 5 =
      (RoleWriteOutcome.errResponse "ttl cannot be greater than max_ttl",
       sampleStorage) :=
  ⟨⟨by decide, by decide, by decide⟩,
   role_write_validation_amended emptyStorage sampleStorage "r1" "r2"
     "bogus" "api_key" [] [] 0 5 10 5 (by decide) (by decide) (by decide)
     (Or.inl rfl) (by decide)⟩

/-- C8: an issuance against a role of key type `api_key` never performs a
`createAppKey` call, and an issuance against a role of key type `app_key`
never performs a `createAPIKey` call, whatever the provider answers. -/
theorem issue_keytype_excludes_other_create (p q : Provider) (hc hd : Bool)
    (s1 s2 : Storage) (r1 r2 : String) (nf1 nf2 : Option String)
    (n1 n2 : Int) (roleA roleB : datadogRole)
    (h1 : getRole s1 r1 = some roleA) (hA : roleA.KeyType = "api_key")
    (h2 : getRole s2 r2 = some roleB) (hB : roleB.KeyType = "app_key") :
    ((pathKeysRead p hc s1 r1 nf1 n1).2.all
      fun c => !c.isCreateAppKey) = true ∧
    ((pathKeysRead q hd s2 r2 nf2 n2).2.all
      fun c => !c.isCreateAPIKey) = true := by
  constructor
  · by_cases hr : r1 = ""
    · simp [pathKeysRead, hr]
    · simp only [pathKeysRead, if_neg hr, h1]
      split
      · rfl
      · simp only [issueWithClient, hA]
        cases hres : p.createAPIKey (effectiveKeyName r1 nf1 n1) <;>
          simp [hres, ProviderCall.isCreateAppKey]
  · by_cases hr : r2 = ""
    · simp [pathKeysRead, hr]
    · simp only [pathKeysRead, if_neg hr, h2]
      split
      · rfl
      · simp only [issueWithClient, hB]
        cases hres : q.createAppKey (effectiveKeyName r2 nf2 n2)
            roleB.Scopes <;>
          simp [hres, ProviderCall.isCreateAPIKey]

/-- Witness for C8 on the sample storage's single-key roles. -/
theorem issue_keytype_excludes_other_create_witness :
    (getRole sampleStorage "ra" = some apiRole ∧ apiRole.KeyType = "api_key" ∧
     getRole sampleStorage "rb" = some appRole ∧
     appRole.KeyType = "app_key") ∧
    ((pathKeysRead okProvider true sampleStorage "ra" none 0).2.all
      fun c => !c.isCreateAppKey) = true ∧
    ((pathKeysRead okProvider true sampleStorage "rb" none 0).2.all
      fun c => !c.isCreateAPIKey) = true :=
  ⟨⟨rfl, rfl, rfl, rfl⟩,
   issue_keytype_excludes_other_create okProvider okProvider true true
     sampleStorage sampleStorage "ra" "rb" none none 0 0 apiRole appRole
     rfl rfl rfl rfl⟩

/-- C9: an issuance request with an empty role name is rejected with the
missing-role-name error response, and one whose non-empty role name has no
stored role record is rejected with the role-not-found response naming the
role — both as caller-visible error responses, not internal failures, with
an empty provider-call trace, and with a result that does not depend on
the stored configuration, on the cached client, or on the provider (so no
configuration lookup or provider call can influence it). -/
theorem issue_missing_role_rejections (p q : Provider) (hc hd : Bool)
    (roles : List (String × datadogRole)) (cfg cfg2 : Option datadogConfig)
    (nameField : Option String) (now : Int) (roleName : String)
    (hrn : roleName ≠ "")
    (habs : getRole ⟨roles, cfg⟩ roleName = none) :
    pathKeysRead p hc ⟨roles, cfg⟩ "" nameField now =
      (KeysReadOutcome.errResponse "missing role name", []) ∧
    pathKeysRead p hc ⟨roles, cfg⟩ roleName nameField now =
      (KeysReadOutcome.errResponse
        ("role \x27" ++ roleName ++ "\x27 not found"), []) ∧
    pathKeysRead p hc ⟨roles, cfg⟩ "" nameField now =
      pathKeysRead q hd ⟨roles, cfg2⟩ "" nameField now ∧
    pathKeysRead p hc ⟨roles, cfg⟩ roleName nameField now =
      pathKeysRead q hd ⟨roles, cfg2⟩ roleName nameField now := by
  have habs2 : getRole ⟨roles, cfg2⟩ roleName = none := habs
  refine ⟨?_, ?_, ?_, ?_⟩ <;>
    simp [pathKeysRead, hrn, habs, habs2]

/-- Witness for C9 at a concrete absent role. -/
theorem issue_missing_role_rejections_witness :
    ("nope" ≠ "" ∧
     getRole ⟨[("r1", sampleRole)], some ⟨"k1", "k2"⟩⟩ "nope" = none) ∧
    pathKeysRead okProvider true ⟨[("r1", sampleRole)], some ⟨"k1", "k2"⟩⟩
        "" none 0 =
      (KeysReadOutcome.errResponse "missing role name", []) ∧
    pathKeysRead okProvider true ⟨[("r1", sampleRole)], some ⟨"k1", "k2"⟩⟩
        "nope" none 0 =
      (KeysReadOutcome.errResponse
        ("role \x27" ++ "nope" ++ "\x27 not found"), []) ∧
    pathKeysRead okProvider true ⟨[("r1", sampleRole)], some ⟨"k1", "k2"⟩⟩
        "" none 0 =
      pathKeysRead failingProvider false ⟨[("r1", sampleRole)], none⟩ ""
        none 0 ∧
    pathKeysRead okProvider true ⟨[("r1", sampleRole)], some ⟨"k1", "k2"⟩⟩
        "nope" none 0 =
      pathKeysRead failingProvider false ⟨[("r1", sampleRole)], none⟩
        "nope" none 0 :=
  ⟨⟨by decide, rfl⟩,
   issue_missing_role_rejections okProvider failingProvider true false
     [("r1", sampleRole)] (some ⟨"k1", "k2"⟩) none none 0 "nope"
     (by decide) rfl⟩

/-- C6 counterexample: a response with the non-2xx status 304 does not
surface as an error — `doRequest` only treats statuses at least 400 as
failures, so `createAPIKey` succeeds on it. -/
theorem client_non2xx_success_cex :
    (clientCreateAPIKey world304 "n").1 = Except.ok "k" ∧
    response304.statusCode = 304 ∧
    ¬ (200 ≤ 304 ∧ 304 ≤ 299) :=
  ⟨rfl, rfl, by decide⟩

/-- C6 amended: every client operation issues exactly one HTTP request
(whose method and path identify the operation; no retry is attempted), any
transport failure surfaces as an error, and any response with status at
least 400 (rather than any non-2xx status) surfaces as an error naming the
status. -/
theorem client_error_surfacing_amended (world : RequestSpec → HTTPOutcome)
    (name key : String) (scopes : List String) (e : String)
    (r : HTTPResponse) (hst : 400 ≤ r.statusCode) :
    (clientCreateAPIKey world name).2 =
      [⟨"POST", "/api_key", RequestPayload.createAPI name⟩] ∧
    (clientCreateAppKey world name scopes).2 =
      [⟨"POST", "/application_key", RequestPayload.createApp name scopes⟩] ∧
    (clientDeleteAPIKey world key).2 =
      [⟨"DELETE", "/api_key/" ++ key, RequestPayload.empty⟩] ∧
    (clientDeleteAppKey world key).2 =
      [⟨"DELETE", "/application_key/" ++ key, RequestPayload.empty⟩] ∧
    (clientCreateAPIKey (fun _ => HTTPOutcome.transportError e) name).1 =
      Except.error e ∧
    (clientCreateAppKey (fun _ => HTTPOutcome.transportError e) name
        scopes).1 = Except.error e ∧
    (clientDeleteAPIKey (fun _ => HTTPOutcome.transportError e) key).1 =
      Except.error e ∧
    (clientDeleteAppKey (fun _ => HTTPOutcome.transportError e) key).1 =
      Except.error e ∧
    (clientCreateAPIKey (fun _ => HTTPOutcome.response r) name).1 =
      Except.error
        ("datadog API request failed with status " ++
          toString r.statusCode) ∧
    (clientCreateAppKey (fun _ => HTTPOutcome.response r) name scopes).1 =
      Except.error
        ("datadog API request failed with status " ++
          toString r.statusCode) ∧
    (clientDeleteAPIKey (fun _ => HTTPOutcome.response r) key).1 =
      Except.error
        ("datadog API request failed with status " ++
          toString r.statusCode) ∧
    (clientDeleteAppKey (fun _ => HTTPOutcome.response r) key).1 =
      Except.error
        ("datadog API request failed with status " ++
          toString r.statusCode) := by
  refine ⟨?_, ?_, ?_, ?_, rfl, rfl, rfl, rfl, ?_, ?_, ?_, ?_⟩
  · simp only [clientCreateAPIKey]
    cases hdr : doRequest
        (world ⟨"POST", "/api_key", RequestPayload.createAPI name⟩) <;>
      simp [hdr]
  · simp only [clientCreateAppKey]
    cases hdr : doRequest
        (world ⟨"POST", "/application_key",
          RequestPayload.createApp name scopes⟩) <;>
      simp [hdr]
  · simp only [clientDeleteAPIKey]
    cases hdr : doRequest
        (world ⟨"DELETE", "/api_key/" ++ key, RequestPayload.empty⟩) <;>
      simp [hdr]
  · simp only [clientDeleteAppKey]
    cases hdr : doRequest
        (world ⟨"DELETE", "/application_key/" ++ key,
          RequestPayload.empty⟩) <;>
      simp [hdr]
  · simp [clientCreateAPIKey, doRequest, if_pos hst]
  · simp [clientCreateAppKey, doRequest, if_pos hst]
  · simp [clientDeleteAPIKey, doRequest, if_pos hst]
  · simp [clientDeleteAppKey, doRequest, if_pos hst]

/-- Witness for the amended C6 at a concrete network and a 404 response. -/
theorem client_error_surfacing_amended_witness :
    400 ≤ response404.statusCode ∧
    ((clientCreateAPIKey world304 "n").2 =
      [⟨"POST", "/api_key", RequestPayload.createAPI "n"⟩] ∧
    (clientCreateAppKey world304 "n" ["s1"]).2 =
      [⟨"POST", "/application_key", RequestPayload.createApp "n" ["s1"]⟩] ∧
    (clientDeleteAPIKey world304 "kv").2 =
      [⟨"DELETE", "/api_key/" ++ "kv", RequestPayload.empty⟩] ∧
    (clientDeleteAppKey world304 "kv").2 =
      [⟨"DELETE", "/application_key/" ++ "kv", RequestPayload.empty⟩] ∧
    (clientCreateAPIKey (fun _ => HTTPOutcome.transportError "te") "n").1 =
      Except.error "te" ∧
    (clientCreateAppKey (fun _ => HTTPOutcome.transportError "te") "n"
        ["s1"]).1 = Except.error "te" ∧
    (clientDeleteAPIKey (fun _ => HTTPOutcome.transportError "te") "kv").1 =
      Except.error "te" ∧
    (clientDeleteAppKey (fun _ => HTTPOutcome.transportError "te") "kv").1 =
      Except.error "te" ∧
    (clientCreateAPIKey (fun _ => HTTPOutcome.response response404) "n").1 =
      Except.error
        ("datadog API request failed with status " ++
          toString response404.statusCode) ∧
    (clientCreateAppKey (fun _ => HTTPOutcome.response response404) "n"
        ["s1"]).1 =
      Except.error
        ("datadog API request failed with status " ++
          toString response404.statusCode) ∧
    (clientDeleteAPIKey (fun _ => HTTPOutcome.response response404)
        "kv").1 =
      Except.error
        ("datadog API request failed with status " ++
          toString response404.statusCode) ∧
    (clientDeleteAppKey (fun _ => HTTPOutcome.response response404)
        "kv").1 =
      Except.error
        ("datadog API request failed with status " ++
          toString response404.statusCode)) :=
  ⟨by decide,
   client_error_surfacing_amended world304 "n" "kv" ["s1"] "te" response404
     (by decide)⟩

/-- C7 counterexample: with no caller-supplied name, the schema default
makes the effective key name `vault-generated`, not a generated name
combining the role name and the current time. -/
theorem effective_name_default_cex :
    (pathKeysRead okProvider true sampleStorage "r1" none 1700000000).2 =
      [ProviderCall.createAPIKey "vault-generated",
       ProviderCall.createAppKey "vault-generated" ["logs_read"]] ∧
    "vault-generated" ≠ "vault-r1-1700000000" :=
  ⟨rfl, by decide⟩

/-- C7 amended: the effective key name passed to the provider create calls
is the caller-supplied name when a non-empty one is given; when the name
field is absent it is the schema default `vault-generated`; only when the
caller explicitly supplies the empty string is it the generated
`vault-<role>-<unix time>` name. -/
theorem effective_name_amended (roleName n : String) (now : Int)
    (p : Provider) (hc : Bool) (s : Storage) (nameField : Option String)
    (role : datadogRole) (a : String)
    (hrn : roleName ≠ "")
    (hrole : getRole s roleName = some role)
    (hkt : role.KeyType = "api_key")
    (hcl : hc = true ∨ s.config.isSome = true)
    (hn : n ≠ "")
    (hapi : p.createAPIKey (effectiveKeyName roleName nameField now) =
      Except.ok a) :
    effectiveKeyName roleName (some n) now = n ∧
    effectiveKeyName roleName none now = "vault-generated" ∧
    effectiveKeyName roleName (some "") now =
      "vault-" ++ roleName ++ "-" ++ toString now ∧
    (pathKeysRead p hc s roleName nameField now).2 =
      [ProviderCall.createAPIKey (effectiveKeyName roleName nameField now)] := by
  have hne : ¬ (role.KeyType = "app_key" ∨ role.KeyType = "both") := by
    rw [hkt]
    decide
  refine ⟨?_, rfl, rfl, ?_⟩
  · simp [effectiveKeyName, fieldGetName, hn]
  · simp only [pathKeysRead, if_neg hrn, hrole, if_neg (clientGuardFalse hcl),
      issueWithClient, if_pos (Or.inl hkt), hapi, if_neg hne]

/-- Witness for the amended C7 on the API-key role. -/
theorem effective_name_amended_witness :
    ("ra" ≠ "" ∧ getRole sampleStorage "ra" = some apiRole ∧
     apiRole.KeyType = "api_key" ∧ "given" ≠ "") ∧
    effectiveKeyName "ra" (some "given") 7 = "given" ∧
    effectiveKeyName "ra" none 7 = "vault-generated" ∧
    effectiveKeyName "ra" (some "") 7 =
      "vault-" ++ "ra" ++ "-" ++ toString (7 : Int) ∧
    (pathKeysRead okProvider true sampleStorage "ra" none 7).2 =
      [ProviderCall.createAPIKey (effectiveKeyName "ra" none 7)] :=
  ⟨⟨by decide, rfl, rfl, by decide⟩,
   effective_name_amended "ra" "given" 7 okProvider true sampleStorage none
     apiRole "test-api-key" (by decide) rfl rfl (Or.inl rfl) (by decide)
     rfl⟩

/-- C10 counterexample: a revoke invocation whose metadata lacks a string
`key_type` does not always fault — when no client is cached and no
configuration is stored, the not-configured error response is returned
before the `key_type` assertion is ever evaluated. -/
theorem revoke_missing_keytype_no_panic_cex :
    assertString (InternalData.mk none none none).key_type = none ∧
    secretKeysRevoke failingProvider false emptyStorage ⟨none, none, none⟩ =
      (RevokeOutcome.errResponse "datadog backend not configured", []) ∧
    RevokeOutcome.errResponse "datadog backend not configured" ≠
      RevokeOutcome.panicked :=
  ⟨rfl, rfl, by decide⟩

/-- C10 amended: once a client is available (cached, or constructible
because a configuration record is stored), `secretKeysRevoke` asserts that
the metadata field `key_type` exists and is a string before any delete is
attempted: whenever that assertion fails the operation panics — with no
provider call made — instead of returning an error value, so revoke is
total only under the precondition that `key_type` is a string. -/
theorem revoke_missing_keytype_panics_amended (p : Provider) (hc : Bool)
    (s : Storage) (internal : InternalData)
    (hcl : hc = true ∨ s.config.isSome = true)
    (hkt : assertString internal.key_type = none) :
    secretKeysRevoke p hc s internal = (RevokeOutcome.panicked, []) := by
  simp only [secretKeysRevoke, if_neg (clientGuardFalse hcl), hkt]

/-- Witness for the amended C10 on metadata holding a non-string
`key_type`. -/
theorem revoke_missing_keytype_panics_amended_witness :
    (true = true ∨ (sampleStorage.config).isSome = true) ∧
    assertString (InternalData.mk (some GoVal.other) none none).key_type =
      none ∧
    secretKeysRevoke okProvider true sampleStorage
        ⟨some GoVal.other, none, none⟩ =
      (RevokeOutcome.panicked, []) :=
  ⟨Or.inl rfl, rfl,
   revoke_missing_keytype_panics_amended okProvider true sampleStorage
     ⟨some GoVal.other, none, none⟩ (Or.inl rfl) rfl⟩
